import Mathlib

/-
Verification development for the babyfs superblock module (src/super.c).

The module implements the mount/unmount lifecycle of a small disk-backed
filesystem and the slab-pool discipline for its in-memory inode wrappers.
We embed the control flow of `babyfs_fill_super`, `baby_put_super`,
`baby_alloc_inode` / `baby_destroy_inode` / `baby_i_callback`,
`init_once` / `init_inodecache` / `destroy_inodecache`, and
`init_babyfs` / `exit_babyfs` as pure Lean functions over explicit
environments (outcomes of the host collaborators: allocator, block layer,
inode provider, dentry constructor) and explicit resource ledgers.
-/

namespace Babyfs

/-- Linux errno value `ENOMEM` (the code returns its negation, `-ENOMEM`). -/
def ENOMEM : Int := 12

/-- Linux errno value `ENOENT` (the root-inode provider's NotFound). -/
def ENOENT : Int := 2

/-- Linux errno value `EIO` as a plain integer (device I/O failure). -/
def EIO_code : Int := 5

/-- The errno carried by a kernel error pointer: `IS_ERR(p)` holds exactly
when `PTR_ERR(p)` is a strictly negative errno, so the code recovered by
`PTR_ERR` is never zero. -/
def ErrPtr : Type := { e : Int // e < 0 }

/-- On-disk superblock record (`struct baby_super_block`, declared in
babyfs.h): the two fields this core parses are the magic identifier and the
total data-store block count; remaining layout fields are out of core scope. -/
structure BabySuperBlock where
  magic : Nat
  nr_dstore_blocks : Int
deriving DecidableEq

/-- In-memory per-mount record (`struct baby_sb_info`): owns the parsed
on-disk superblock and the pinned buffer-head handle `s_sbh` backing it
(pin/release counts are tracked in the `Ledger`). -/
structure SbInfo where
  s_babysb : BabySuperBlock
deriving DecidableEq

/-- The VFS `struct super_block` fields this module touches: the magic
copied from disk, the private `s_fs_info` back-reference to the `SbInfo`,
and whether a root dentry has been installed. -/
structure SuperBlockState where
  s_magic : Nat
  s_fs_info : Option SbInfo
  s_root : Bool
deriving DecidableEq

/-- Process-wide mutable globals of super.c: `int NR_DSTORE_BLOCKS`. -/
structure Globals where
  NR_DSTORE_BLOCKS : Int
deriving DecidableEq

/-- Resource ledger for one mount attempt: how many times the mount path
allocated / freed the `baby_sb_info`, and how many times it pinned
(successful `sb_bread`) / released (`brelse`) the superblock buffer head. -/
structure Ledger where
  sbInfoAllocs : Nat
  sbInfoFrees : Nat
  bhReads : Nat
  bhReleases : Nat
deriving DecidableEq

/-- Outcomes of the external collaborators invoked by `babyfs_fill_super`:
whether `kzalloc` succeeds, whether `sb_set_blocksize` accepts the
filesystem's fixed logical block size, what `sb_bread` returns for the
reserved superblock block (`none` models read failure), what the inode
provider `baby_iget` (defined in the repository outside super.c) returns
for the root inode number, and whether `d_make_root` succeeds. -/
structure FillSuperEnv where
  kzalloc_ok : Bool
  set_blocksize_ok : Bool
  sb_bread_result : Option BabySuperBlock
  iget_result : Except ErrPtr Unit
  d_make_root_ok : Bool

/-- Result of one `babyfs_fill_super` call: the C return value (`0` on
success, a negative errno on failure), the super-block state, the updated
process globals, and the resource ledger of this attempt. -/
structure FillResult where
  ret : Int
  sb : SuperBlockState
  g : Globals
  ledger : Ledger
deriving DecidableEq

/-- Embedding of `babyfs_fill_super` (src/super.c lines 12-65).
Control flow mirrored from the source: `ret` is initialised to `-ENOMEM`;
`kzalloc` failure, `sb_set_blocksize` failure and `sb_bread` failure all
`goto failed` and return the current `ret` (still `-ENOMEM`), without
freeing the already-allocated `baby_sb_info`; after a successful read the
code stores `nr_dstore_blocks` into the global, copies the magic into
`sb->s_magic`, installs the `SbInfo` into `sb->s_fs_info`, and calls
`baby_iget`; an error pointer sets `ret = PTR_ERR(...)` and takes
`failed_mount`, which releases the buffer head (`brelse`) before
returning; `d_make_root` failure does the same with `ret = -ENOMEM`. -/
def babyfs_fill_super (env : FillSuperEnv) (g : Globals) (sb0 : SuperBlockState) :
    FillResult :=
  if env.kzalloc_ok = false then
    { ret := -ENOMEM, sb := sb0, g := g,
      ledger := { sbInfoAllocs := 0, sbInfoFrees := 0, bhReads := 0, bhReleases := 0 } }
  else if env.set_blocksize_ok = false then
    { ret := -ENOMEM, sb := sb0, g := g,
      ledger := { sbInfoAllocs := 1, sbInfoFrees := 0, bhReads := 0, bhReleases := 0 } }
  else
    match env.sb_bread_result with
    | none =>
      { ret := -ENOMEM, sb := sb0, g := g,
        ledger := { sbInfoAllocs := 1, sbInfoFrees := 0, bhReads := 1, bhReleases := 0 } }
    | some baby_sb =>
      let g1 : Globals := { NR_DSTORE_BLOCKS := baby_sb.nr_dstore_blocks }
      let sb1 : SuperBlockState :=
        { s_magic := baby_sb.magic, s_fs_info := some { s_babysb := baby_sb },
          s_root := sb0.s_root }
      match env.iget_result with
      | Except.error e =>
        { ret := e.val, sb := sb1, g := g1,
          ledger := { sbInfoAllocs := 1, sbInfoFrees := 0, bhReads := 1, bhReleases := 1 } }
      | Except.ok _ =>
        if env.d_make_root_ok = false then
          { ret := -ENOMEM, sb := sb1, g := g1,
            ledger := { sbInfoAllocs := 1, sbInfoFrees := 0, bhReads := 1, bhReleases := 1 } }
        else
          { ret := 0, sb := { sb1 with s_root := true }, g := g1,
            ledger := { sbInfoAllocs := 1, sbInfoFrees := 0, bhReads := 1, bhReleases := 0 } }

/-- Embedding of `baby_put_super` (src/super.c lines 138-146): if
`BABY_SB(sb)` (the `s_fs_info` back-reference) is `NULL` it returns at
once; otherwise it releases the pinned buffer head (`brelse`), clears
`sb->s_fs_info`, and frees the `SbInfo` (`kfree`). -/
def baby_put_super (sb : SuperBlockState) (led : Ledger) : SuperBlockState × Ledger :=
  match sb.s_fs_info with
  | none => (sb, led)
  | some _ =>
    ({ sb with s_fs_info := none },
     { led with sbInfoFrees := led.sbInfoFrees + 1, bhReleases := led.bhReleases + 1 })

/-- The page size used by the generic statistics default. -/
def PAGE_SIZE : Nat := 4096

/-- The kernel's `NAME_MAX` reported by the generic statistics default. -/
def NAME_MAX : Nat := 255

/-- The `struct kstatfs` fields relevant here; the caller
(`statfs_by_dentry`) zero-initialises the whole buffer before dispatching
to the filesystem's `statfs` operation. -/
structure Kstatfs where
  f_type : Nat
  f_bsize : Nat
  f_blocks : Nat
  f_bfree : Nat
  f_namelen : Nat
deriving DecidableEq

/-- Modelled from the Linux VFS generic default `simple_statfs`
(fs/libfs.c), which `babyfs_super_opts.statfs` delegates to (src/super.c
line 149): it fills `f_type` from the mounted superblock's magic, `f_bsize`
with the page size, `f_namelen` with `NAME_MAX`, and leaves every other
field of the zero-initialised `kstatfs` buffer — in particular the total
and free block counts — at zero. -/
def simple_statfs (sb : SuperBlockState) : Kstatfs :=
  { f_type := sb.s_magic, f_bsize := PAGE_SIZE, f_blocks := 0, f_bfree := 0,
    f_namelen := NAME_MAX }

/-- One slot of the `baby_inode_info` slab category: how many times the
cache constructor `init_once` has run on it, and whether it is currently
handed out by `baby_alloc_inode`. -/
structure PoolSlot where
  initOnceRuns : Nat
  allocated : Bool
deriving DecidableEq

/-- Embedding of `init_once` (src/super.c lines 104-108): the cache
constructor passed to `kmem_cache_create_usercopy`; it performs the
one-time initialisation of the embedded generic `vfs_inode` sub-object
(`inode_init_once`), recorded here as one more constructor run. -/
def init_once (bbi : PoolSlot) : PoolSlot :=
  { bbi with initOnceRuns := bbi.initOnceRuns + 1 }

/-- The `baby_inode_cachep` slab category, modelled as the spec's §9
redesign note describes the kernel pool: a backing arena of carved slots;
the constructor mark is the per-slot `initOnceRuns` counter. -/
structure KmemCache where
  slots : List PoolSlot
deriving DecidableEq

/-- Modelled from the spec: carving a fresh slot from bulk pool storage
runs the cache constructor (`init_once`, installed by `init_inodecache`)
exactly at carve time, before the slot ever reaches the free list. -/
def carveSlot (c : KmemCache) : KmemCache :=
  { slots := c.slots ++ [init_once { initOnceRuns := 0, allocated := false }] }

/-- Apply `f` to the slot at index `i` (identity out of range). -/
def modifySlot (l : List PoolSlot) (i : Nat) (f : PoolSlot → PoolSlot) :
    List PoolSlot :=
  match l, i with
  | [], _ => []
  | s :: t, 0 => f s :: t
  | s :: t, Nat.succ n => s :: modifySlot t n f

/-- Modelled from the spec: `kmem_cache_alloc` hands out an already-carved
slot — this is the whole body of `baby_alloc_inode` (src/super.c lines
86-92) on the pool state — without re-running the constructor. -/
def kmem_cache_alloc (c : KmemCache) (i : Nat) : KmemCache :=
  { slots := modifySlot c.slots i (fun s => { s with allocated := true }) }

/-- Modelled from the spec: `kmem_cache_free` (the body of
`baby_i_callback`, src/super.c lines 94-97, on the pool state) returns the
slot to the free list without touching the constructor mark. -/
def kmem_cache_free (c : KmemCache) (i : Nat) : KmemCache :=
  { slots := modifySlot c.slots i (fun s => { s with allocated := false }) }

/-- One pool-level action: carve a fresh slot from bulk storage, allocate
slot `i` through `baby_alloc_inode`, or run the deferred reclamation
callback `baby_i_callback` on slot `i`. -/
inductive PoolOp where
  | carveOp : PoolOp
  | allocOp : Nat → PoolOp
  | reclaimOp : Nat → PoolOp
deriving DecidableEq

/-- One step of the pool state machine. -/
def poolStep (c : KmemCache) : PoolOp → KmemCache
  | PoolOp.carveOp => carveSlot c
  | PoolOp.allocOp i => kmem_cache_alloc c i
  | PoolOp.reclaimOp i => kmem_cache_free c i

/-- Run a sequence of pool actions from a given cache state. -/
def poolRun (c : KmemCache) (ops : List PoolOp) : KmemCache :=
  ops.foldl poolStep c

/-- The empty cache created by `init_inodecache` (src/super.c lines
111-126) when `kmem_cache_create_usercopy` succeeds: no slot carved yet. -/
def init_inodecache_state : KmemCache := { slots := [] }

/-- Events on the deferred-reclamation teardown path: execution of one
pending `baby_i_callback` (indexed), or `kmem_cache_destroy` of the
`baby_inode_info` category. -/
inductive RcuEvent where
  | reclaimExec : Nat → RcuEvent
  | cacheDestroyed : RcuEvent
deriving DecidableEq

/-- Modelled from the spec: `rcu_barrier` blocks, without timeout, until
every previously scheduled deferred reclamation has executed; its trace on
`pending` outstanding callbacks is exactly those `pending` executions. -/
def rcu_barrier (pending : Nat) : List RcuEvent :=
  (List.range pending).map RcuEvent.reclaimExec

/-- Embedding of `destroy_inodecache` (src/super.c lines 129-136): first
`rcu_barrier()` flushes all delayed rcu-freed inodes, then
`kmem_cache_destroy` destroys the category; the value is the event trace. -/
def destroy_inodecache (pending : Nat) : List RcuEvent :=
  rcu_barrier pending ++ [RcuEvent.cacheDestroyed]

/-- Module-lifecycle events of `init_babyfs` / `exit_babyfs`. -/
inductive ModEvent where
  | poolCreated : ModEvent
  | registerAttempted : ModEvent
  | poolDestroyed : ModEvent
  | fsUnregistered : ModEvent
deriving DecidableEq

/-- Embedding of `init_babyfs` (src/super.c lines 164-180): first
`init_inodecache()` — on failure return `-ENOMEM` before any registration;
then `register_filesystem` — on failure (`registerRet ≠ 0`)
`destroy_inodecache()` and return the registration error; the value is the
event trace paired with the C return value. -/
def init_babyfs (cacheOk : Bool) (registerRet : Int) : List ModEvent × Int :=
  if cacheOk = false then ([], -ENOMEM)
  else if registerRet = 0 then
    ([ModEvent.poolCreated, ModEvent.registerAttempted], 0)
  else
    ([ModEvent.poolCreated, ModEvent.registerAttempted, ModEvent.poolDestroyed],
     registerRet)

/-- Embedding of `exit_babyfs` (src/super.c lines 182-186):
`unregister_filesystem` first, then `destroy_inodecache()` (drain barrier
plus destroy). -/
def exit_babyfs : List ModEvent :=
  [ModEvent.fsUnregistered, ModEvent.poolDestroyed]

/-- The address of the embedded generic sub-object: `&bbi->vfs_inode`,
where the wrapper `struct baby_inode_info` starts at `base` and its
`vfs_inode` member lives at byte offset `off`. This is the pointer
`baby_alloc_inode` returns (src/super.c line 91). -/
def vfs_inode_addr (off base : Nat) : Nat := base + off

/-- Modelled from the spec (babyfs.h is outside the reviewed core):
`BABY_I(inode) = container_of(inode, struct baby_inode_info, vfs_inode)`,
i.e. subtract the `vfs_inode` member offset from the generic pointer to
recover the containing wrapper. `baby_i_callback` (src/super.c lines
94-97) frees exactly the wrapper this recovers. -/
def BABY_I (off p : Nat) : Nat := p - off

/-- The pointer value handed out by `baby_alloc_inode` for the wrapper
slot at address `base`. -/
def baby_alloc_inode_ptr (off base : Nat) : Nat := vfs_inode_addr off base

/-- The wrapper address that the deferred-reclamation callback
`baby_i_callback` passes to `kmem_cache_free`, recovered from the generic
inode pointer `p` via `BABY_I`. -/
def baby_i_callback_frees (off p : Nat) : Nat := BABY_I off p

/-- A concrete strictly-negative errno carried by an error pointer:
`-ENOENT`, the inode provider's NotFound. -/
def errNoEnt : ErrPtr := ⟨-ENOENT, by decide⟩

/-- Empty initial super-block state handed in by the VFS. -/
def sbEmpty : SuperBlockState := { s_magic := 0, s_fs_info := none, s_root := false }

/-- Initial process globals. -/
def g0 : Globals := { NR_DSTORE_BLOCKS := 0 }

/-- Alternative concrete globals for instantiations. -/
def gW : Globals := { NR_DSTORE_BLOCKS := 7 }

/-- Concrete environment: allocation succeeds but the device refuses the
filesystem's fixed logical block size. -/
def envBlockSizeFail : FillSuperEnv :=
  { kzalloc_ok := true, set_blocksize_ok := false, sb_bread_result := none,
    iget_result := Except.error errNoEnt, d_make_root_ok := true }

/-- Concrete environment: everything up to the root-inode request succeeds,
then `baby_iget` fails with NotFound (`-ENOENT`). -/
def envIgetFail : FillSuperEnv :=
  { kzalloc_ok := true, set_blocksize_ok := true,
    sb_bread_result := some { magic := 0xBABE1234, nr_dstore_blocks := 1000 },
    iget_result := Except.error errNoEnt, d_make_root_ok := true }

/-- Concrete environment: fully successful mount of a superblock with magic
`0xBABE1234` and block count `1000`. -/
def envMount1000 : FillSuperEnv :=
  { kzalloc_ok := true, set_blocksize_ok := true,
    sb_bread_result := some { magic := 0xBABE1234, nr_dstore_blocks := 1000 },
    iget_result := Except.ok (), d_make_root_ok := true }

/-- Concrete environment: fully successful mount, identical to
`envMount1000` except the on-disk block count is `7`. -/
def envMount7 : FillSuperEnv :=
  { kzalloc_ok := true, set_blocksize_ok := true,
    sb_bread_result := some { magic := 0xBABE1234, nr_dstore_blocks := 7 },
    iget_result := Except.ok (), d_make_root_ok := true }

/-- A mounted super-block state with the scenario's parameters. -/
def sbMounted : SuperBlockState :=
  { s_magic := 0xBABE1234,
    s_fs_info := some { s_babysb := { magic := 0xBABE1234, nr_dstore_blocks := 1000 } },
    s_root := true }

/-- Ledger right after a successful mount: one `SbInfo` allocated, the
superblock buffer head read once and still pinned. -/
def ledMounted : Ledger :=
  { sbInfoAllocs := 1, sbInfoFrees := 0, bhReads := 1, bhReleases := 0 }

/-- C1, counterexample: with allocation succeeding and the device refusing
the block size, `babyfs_fill_super` returns `-ENOMEM` (the initial value of
`ret`), not `-EIO`, and the `baby_sb_info` allocated just before the
block-size attempt has been allocated and is never freed by the failing
mount — contradicting both halves of the claim. -/
theorem set_blocksize_failure_concrete :
    (babyfs_fill_super envBlockSizeFail g0 sbEmpty).ret = -ENOMEM
    ∧ (babyfs_fill_super envBlockSizeFail g0 sbEmpty).ret ≠ -EIO_code
    ∧ (babyfs_fill_super envBlockSizeFail g0 sbEmpty).ledger.sbInfoAllocs = 1
    ∧ (babyfs_fill_super envBlockSizeFail g0 sbEmpty).ledger.sbInfoFrees = 0 := by
  decide

/-- C1 (amended): if the device cannot be configured to the filesystem's
fixed logical block size, mount fails with `-ENOMEM` (the stale initial
`ret`, not an I/O error code), after the `SuperblockInfo` has already been
allocated; the failing mount does not free it. -/
theorem set_blocksize_failure_behavior (env : FillSuperEnv) (g : Globals)
    (sb0 : SuperBlockState) (hk : env.kzalloc_ok = true)
    (hb : env.set_blocksize_ok = false) :
    (babyfs_fill_super env g sb0).ret = -ENOMEM
    ∧ (babyfs_fill_super env g sb0).ledger.sbInfoAllocs = 1
    ∧ (babyfs_fill_super env g sb0).ledger.sbInfoFrees = 0 := by
  simp [babyfs_fill_super, hk, hb]

/-- C1, instantiation of `set_blocksize_failure_behavior` at a concrete
environment. -/
theorem set_blocksize_failure_behavior_inst :
    (babyfs_fill_super envBlockSizeFail gW sbEmpty).ret = -ENOMEM
    ∧ (babyfs_fill_super envBlockSizeFail gW sbEmpty).ledger.sbInfoAllocs = 1
    ∧ (babyfs_fill_super envBlockSizeFail gW sbEmpty).ledger.sbInfoFrees = 0 :=
  set_blocksize_failure_behavior envBlockSizeFail gW sbEmpty (by decide) (by decide)

/-- C2, counterexample: when the root-inode request fails with NotFound,
the mount does release the pinned block handle and propagate `-ENOENT`,
but the `SuperblockInfo` it allocated is never freed by the failing mount
(`sbInfoAllocs = 1`, `sbInfoFrees = 0`) — refuting the claim's clause that
the failed mount leaks no resource it acquired. -/
theorem iget_failure_concrete :
    (babyfs_fill_super envIgetFail g0 sbEmpty).ret = -ENOENT
    ∧ (babyfs_fill_super envIgetFail g0 sbEmpty).ledger.bhReleases = 1
    ∧ (babyfs_fill_super envIgetFail g0 sbEmpty).ledger.sbInfoAllocs = 1
    ∧ (babyfs_fill_super envIgetFail g0 sbEmpty).ledger.sbInfoFrees = 0 := by
  decide

/-- C2 (amended): if the root-inode request fails, mount releases the
pinned superblock block handle exactly once (one read, one release) and
propagates the provider's error code; the `SuperblockInfo` allocated
earlier is not freed by the failing mount — it stays installed in the
super block's private field. -/
theorem iget_failure_releases_bh (env : FillSuperEnv) (g : Globals)
    (sb0 : SuperBlockState) (b : BabySuperBlock) (e : ErrPtr)
    (hk : env.kzalloc_ok = true) (hb : env.set_blocksize_ok = true)
    (hr : env.sb_bread_result = some b) (hi : env.iget_result = Except.error e) :
    (babyfs_fill_super env g sb0).ret = e.val
    ∧ (babyfs_fill_super env g sb0).ledger.bhReads = 1
    ∧ (babyfs_fill_super env g sb0).ledger.bhReleases = 1
    ∧ (babyfs_fill_super env g sb0).sb.s_fs_info = some { s_babysb := b }
    ∧ (babyfs_fill_super env g sb0).ledger.sbInfoFrees = 0 := by
  simp [babyfs_fill_super, hk, hb, hr, hi]

/-- C2, instantiation of `iget_failure_releases_bh` at a concrete
environment. -/
theorem iget_failure_releases_bh_inst :
    (babyfs_fill_super envIgetFail gW sbEmpty).ret = errNoEnt.val
    ∧ (babyfs_fill_super envIgetFail gW sbEmpty).ledger.bhReads = 1
    ∧ (babyfs_fill_super envIgetFail gW sbEmpty).ledger.bhReleases = 1
    ∧ (babyfs_fill_super envIgetFail gW sbEmpty).sb.s_fs_info
        = some { s_babysb := { magic := 0xBABE1234, nr_dstore_blocks := 1000 } }
    ∧ (babyfs_fill_super envIgetFail gW sbEmpty).ledger.sbInfoFrees = 0 :=
  iget_failure_releases_bh envIgetFail gW sbEmpty
    { magic := 0xBABE1234, nr_dstore_blocks := 1000 } errNoEnt rfl rfl rfl rfl

/-- C3, counterexample: two successful mounts whose on-disk block counts
are `1000` and `7` produce byte-for-byte identical statistics, with total
and free block counts both `0`: the statistics query (the generic default
`simple_statfs` that `babyfs_super_opts.statfs` delegates to) does not
derive any block count from the mounted block-count parameter. -/
theorem statfs_ignores_block_count_concrete :
    (babyfs_fill_super envMount1000 g0 sbEmpty).ret = 0
    ∧ (babyfs_fill_super envMount7 g0 sbEmpty).ret = 0
    ∧ simple_statfs (babyfs_fill_super envMount1000 g0 sbEmpty).sb
        = simple_statfs (babyfs_fill_super envMount7 g0 sbEmpty).sb
    ∧ (simple_statfs (babyfs_fill_super envMount1000 g0 sbEmpty).sb).f_blocks = 0
    ∧ (simple_statfs (babyfs_fill_super envMount1000 g0 sbEmpty).sb).f_bfree = 0 := by
  decide

/-- C3 (amended): after a successful mount whose on-disk superblock has
magic `0xBABE1234` and block count `1000`, the statistics query delegates
to the generic default, which reports the magic as the filesystem type,
the fixed page size and maximum name length, and leaves the total and free
block counts at zero — they are not derived from the mounted `1000`. -/
theorem statfs_after_mount_1000 (env : FillSuperEnv) (g : Globals)
    (sb0 : SuperBlockState)
    (hk : env.kzalloc_ok = true) (hb : env.set_blocksize_ok = true)
    (hr : env.sb_bread_result
        = some { magic := 0xBABE1234, nr_dstore_blocks := 1000 })
    (hi : env.iget_result = Except.ok ()) (hd : env.d_make_root_ok = true) :
    (babyfs_fill_super env g sb0).ret = 0
    ∧ simple_statfs (babyfs_fill_super env g sb0).sb
        = { f_type := 0xBABE1234, f_bsize := PAGE_SIZE, f_blocks := 0,
            f_bfree := 0, f_namelen := NAME_MAX } := by
  simp [babyfs_fill_super, simple_statfs, hk, hb, hr, hi, hd]

/-- C3, instantiation of `statfs_after_mount_1000` at a concrete
environment. -/
theorem statfs_after_mount_1000_inst :
    (babyfs_fill_super envMount1000 gW sbEmpty).ret = 0
    ∧ simple_statfs (babyfs_fill_super envMount1000 gW sbEmpty).sb
        = { f_type := 0xBABE1234, f_bsize := PAGE_SIZE, f_blocks := 0,
            f_bfree := 0, f_namelen := NAME_MAX } :=
  statfs_after_mount_1000 envMount1000 gW sbEmpty rfl rfl rfl rfl rfl

/-- C4: mount performs no validation of the on-disk superblock content —
if a mount succeeds with one superblock content, it succeeds with every
other content under the same collaborator outcomes (so no magic or
block-count value ever makes it fail, with `Corrupt` or anything else),
and the mounted instance's magic equals the value read from disk. -/
theorem mount_no_content_validation (env : FillSuperEnv) (g : Globals)
    (sb0 : SuperBlockState) (b1 b2 : BabySuperBlock)
    (hr : (babyfs_fill_super { env with sb_bread_result := some b1 } g sb0).ret
        = 0) :
    (babyfs_fill_super { env with sb_bread_result := some b2 } g sb0).ret = 0
    ∧ (babyfs_fill_super { env with sb_bread_result := some b1 } g sb0).sb.s_magic
        = b1.magic := by
  cases hk : env.kzalloc_ok with
  | false => simp [babyfs_fill_super, hk, ENOMEM] at hr
  | true =>
    cases hb : env.set_blocksize_ok with
    | false => simp [babyfs_fill_super, hk, hb, ENOMEM] at hr
    | true =>
      cases hi : env.iget_result with
      | error e =>
        have he := e.property
        simp [babyfs_fill_super, hk, hb, hi] at hr
        omega
      | ok u =>
        cases hd : env.d_make_root_ok with
        | false => simp [babyfs_fill_super, hk, hb, hi, hd, ENOMEM] at hr
        | true => simp [babyfs_fill_super, hk, hb, hi, hd]

/-- C4, instantiation of `mount_no_content_validation` at a concrete
environment and two concrete superblock contents. -/
theorem mount_no_content_validation_inst :
    (babyfs_fill_super
        { envMount1000 with
            sb_bread_result := some { magic := 0xDEAD, nr_dstore_blocks := 3 } }
        g0 sbEmpty).ret = 0
    ∧ (babyfs_fill_super
        { envMount1000 with
            sb_bread_result := some { magic := 0xBABE1234, nr_dstore_blocks := 1000 } }
        g0 sbEmpty).sb.s_magic
        = ({ magic := 0xBABE1234, nr_dstore_blocks := 1000 } : BabySuperBlock).magic :=
  mount_no_content_validation envMount1000 g0 sbEmpty
    { magic := 0xBABE1234, nr_dstore_blocks := 1000 }
    { magic := 0xDEAD, nr_dstore_blocks := 3 } (by decide)

/-- Helper: if `a` does not occur in `xs`, the only way to split
`xs ++ [a]` around an occurrence of `a` is at the very end. -/
theorem snoc_split_unique {α : Type} (a : α) (xs : List α) :
    ∀ l₁ l₂ : List α, a ∉ xs → xs ++ [a] = l₁ ++ a :: l₂ → l₁ = xs ∧ l₂ = [] := by
  induction xs with
  | nil =>
    intro l₁ l₂ _ h
    cases l₁ with
    | nil =>
      simp at h
      exact ⟨rfl, h⟩
    | cons b t =>
      simp at h
  | cons x xs ih =>
    intro l₁ l₂ hmem h
    cases l₁ with
    | nil =>
      simp at h
      obtain ⟨hxa, -⟩ := h
      exact absurd (hxa ▸ List.mem_cons_self x xs) hmem
    | cons b t =>
      simp at h
      obtain ⟨hxb, ht⟩ := h
      have := ih t l₂ (fun hm => hmem (List.mem_cons_of_mem x hm)) ht
      exact ⟨by rw [hxb, this.1], this.2⟩

/-- Helper: the drain barrier's trace holds no destroy event. -/
theorem cacheDestroyed_not_mem_rcu_barrier (N : Nat) :
    RcuEvent.cacheDestroyed ∉ rcu_barrier N := by
  simp [rcu_barrier]

/-- C5: wherever the `cacheDestroyed` event occurs in the trace of
`destroy_inodecache` run with `N` pending deferred reclamations, everything
before it is exactly the full drain (`rcu_barrier N`) — so every one of the
`N` scheduled reclamations has executed before the pool category is
destroyed — and nothing follows it: the pool is never destroyed while any
deferred reclamation is still pending, for every `N` including `0`. -/
theorem destroy_inodecache_drains_first (N : Nat) (l₁ l₂ : List RcuEvent)
    (h : destroy_inodecache N = l₁ ++ RcuEvent.cacheDestroyed :: l₂) :
    l₁ = rcu_barrier N ∧ l₂ = []
    ∧ ∀ i, i < N → RcuEvent.reclaimExec i ∈ l₁ := by
  have h' : rcu_barrier N ++ [RcuEvent.cacheDestroyed]
      = l₁ ++ RcuEvent.cacheDestroyed :: l₂ := h
  have hsplit := snoc_split_unique RcuEvent.cacheDestroyed (rcu_barrier N) l₁ l₂
    (cacheDestroyed_not_mem_rcu_barrier N) h'
  refine ⟨hsplit.1, hsplit.2, ?_⟩
  intro i hi
  rw [hsplit.1]
  simp [rcu_barrier]
  exact hi

/-- C5, instantiation of `destroy_inodecache_drains_first` at `N = 2` with
the explicit split of the trace. -/
theorem destroy_inodecache_drains_first_inst :
    RcuEvent.reclaimExec 1 ∈ [RcuEvent.reclaimExec 0, RcuEvent.reclaimExec 1] :=
  (destroy_inodecache_drains_first 2
      [RcuEvent.reclaimExec 0, RcuEvent.reclaimExec 1] [] (by decide)).2.2 1
    (by decide)

/-- Helper: modifying one slot with an `initOnceRuns`-preserving function
preserves the per-slot constructor-count invariant. -/
theorem modifySlot_initOnce (f : PoolSlot → PoolSlot)
    (hf : ∀ t, (f t).initOnceRuns = t.initOnceRuns) :
    ∀ (l : List PoolSlot) (i : Nat), (∀ s ∈ l, s.initOnceRuns = 1) →
      ∀ s ∈ modifySlot l i f, s.initOnceRuns = 1 := by
  intro l
  induction l with
  | nil => intro i _ s hs; simp [modifySlot] at hs
  | cons x t ih =>
    intro i hl s hs
    cases i with
    | zero =>
      simp [modifySlot] at hs
      rcases hs with hfx | hst
      · rw [hfx, hf]
        exact hl x (List.mem_cons_self x t)
      · exact hl s (List.mem_cons_of_mem x hst)
    | succ n =>
      simp [modifySlot] at hs
      rcases hs with hsx | hst
      · rw [hsx]
        exact hl x (List.mem_cons_self x t)
      · exact ih n (fun u hu => hl u (List.mem_cons_of_mem x hu)) s hst

/-- Helper: every pool action preserves the invariant that each carved
slot has seen exactly one constructor run. -/
theorem poolStep_initOnce (c : KmemCache) (op : PoolOp)
    (hc : ∀ s ∈ c.slots, s.initOnceRuns = 1) :
    ∀ s ∈ (poolStep c op).slots, s.initOnceRuns = 1 := by
  cases op with
  | carveOp =>
    intro s hs
    simp [poolStep, carveSlot] at hs
    rcases hs with hmem | hnew
    · exact hc s hmem
    · rw [hnew]; rfl
  | allocOp i =>
    exact modifySlot_initOnce (fun t => { t with allocated := true })
      (fun t => rfl) c.slots i hc
  | reclaimOp i =>
    exact modifySlot_initOnce (fun t => { t with allocated := false })
      (fun t => rfl) c.slots i hc

/-- Helper: the invariant is preserved along any run of pool actions. -/
theorem poolRun_initOnce (ops : List PoolOp) :
    ∀ c : KmemCache, (∀ s ∈ c.slots, s.initOnceRuns = 1) →
      ∀ s ∈ (poolRun c ops).slots, s.initOnceRuns = 1 := by
  induction ops with
  | nil => intro c hc; exact hc
  | cons op rest ih =>
    intro c hc
    exact ih (poolStep c op) (poolStep_initOnce c op hc)

/-- C6: starting from the freshly created cache, after any sequence of
carve / `baby_alloc_inode` / deferred-reclaim actions, every slot of the
pool has had the one-time initialiser `init_once` run on it exactly once —
it ran at carve time, and no allocate/reclaim cycle ever re-runs it. -/
theorem init_once_exactly_once_per_slot (ops : List PoolOp) (s : PoolSlot)
    (hs : s ∈ (poolRun init_inodecache_state ops).slots) : s.initOnceRuns = 1 :=
  poolRun_initOnce ops init_inodecache_state
    (by intro t ht; simp [init_inodecache_state] at ht) s hs

/-- C6, instantiation of `init_once_exactly_once_per_slot` on a run that
carves a slot and then allocates and reclaims it repeatedly. -/
theorem init_once_exactly_once_per_slot_inst :
    ({ initOnceRuns := 1, allocated := true } : PoolSlot).initOnceRuns = 1 :=
  init_once_exactly_once_per_slot
    [PoolOp.carveOp, PoolOp.allocOp 0, PoolOp.reclaimOp 0, PoolOp.allocOp 0,
     PoolOp.carveOp]
    { initOnceRuns := 1, allocated := true } (by decide)

/-- C7: on an attached instance, `baby_put_super` releases the pinned
block handle exactly once, clears the `s_fs_info` back-reference, and
frees the `SbInfo`; re-running it on the result is a no-op (state and
ledger unchanged), so the handle is released exactly once across repeated
calls. -/
theorem baby_put_super_releases_once (sb : SuperBlockState) (led : Ledger)
    (info : SbInfo) (h : sb.s_fs_info = some info) :
    (baby_put_super sb led).1.s_fs_info = none
    ∧ (baby_put_super sb led).2.bhReleases = led.bhReleases + 1
    ∧ (baby_put_super sb led).2.sbInfoFrees = led.sbInfoFrees + 1
    ∧ baby_put_super (baby_put_super sb led).1 (baby_put_super sb led).2
        = baby_put_super sb led := by
  simp [baby_put_super, h]

/-- C7, instantiation of `baby_put_super_releases_once` on a concrete
mounted state. -/
theorem baby_put_super_releases_once_inst :
    (baby_put_super sbMounted ledMounted).1.s_fs_info = none
    ∧ (baby_put_super sbMounted ledMounted).2.bhReleases
        = ledMounted.bhReleases + 1
    ∧ (baby_put_super sbMounted ledMounted).2.sbInfoFrees
        = ledMounted.sbInfoFrees + 1
    ∧ baby_put_super (baby_put_super sbMounted ledMounted).1
        (baby_put_super sbMounted ledMounted).2
        = baby_put_super sbMounted ledMounted :=
  baby_put_super_releases_once sbMounted ledMounted
    { s_babysb := { magic := 0xBABE1234, nr_dstore_blocks := 1000 } } rfl

/-- C8: `init_babyfs` with a failing pool creation returns `-ENOMEM` with
no event at all (so no registration was attempted); with pool creation
succeeding, the pool is created first and registration attempted second;
if registration fails the freshly created pool is destroyed before the
registration error is returned; and `exit_babyfs` unregisters the
filesystem type first and performs pool teardown second. -/
theorem init_exit_babyfs_ordering (r : Int) (hr : r ≠ 0) :
    init_babyfs false r = ([], -ENOMEM)
    ∧ init_babyfs true 0 = ([ModEvent.poolCreated, ModEvent.registerAttempted], 0)
    ∧ init_babyfs true r
        = ([ModEvent.poolCreated, ModEvent.registerAttempted,
            ModEvent.poolDestroyed], r)
    ∧ exit_babyfs = [ModEvent.fsUnregistered, ModEvent.poolDestroyed] := by
  refine ⟨rfl, rfl, ?_, rfl⟩
  simp [init_babyfs, hr]

/-- C8, instantiation of `init_exit_babyfs_ordering` at a concrete
registration error. -/
theorem init_exit_babyfs_ordering_inst :
    init_babyfs false (-17) = ([], -ENOMEM)
    ∧ init_babyfs true 0 = ([ModEvent.poolCreated, ModEvent.registerAttempted], 0)
    ∧ init_babyfs true (-17)
        = ([ModEvent.poolCreated, ModEvent.registerAttempted,
            ModEvent.poolDestroyed], -17)
    ∧ exit_babyfs = [ModEvent.fsUnregistered, ModEvent.poolDestroyed] :=
  init_exit_babyfs_ordering (-17) (by decide)

/-- C9: every mount that reaches the superblock parse stores the parsed
block count into the single process-wide `NR_DSTORE_BLOCKS`; mounting a
second instance stores its own count into the same global, overwriting the
value the first instance deposited — cross-instance interference through
shared mutable global state. -/
theorem nr_dstore_blocks_overwritten (env1 env2 : FillSuperEnv) (g : Globals)
    (sb1 sb2 : SuperBlockState) (b1 b2 : BabySuperBlock)
    (h1k : env1.kzalloc_ok = true) (h1b : env1.set_blocksize_ok = true)
    (h1r : env1.sb_bread_result = some b1)
    (h2k : env2.kzalloc_ok = true) (h2b : env2.set_blocksize_ok = true)
    (h2r : env2.sb_bread_result = some b2) :
    (babyfs_fill_super env1 g sb1).g.NR_DSTORE_BLOCKS = b1.nr_dstore_blocks
    ∧ (babyfs_fill_super env2 (babyfs_fill_super env1 g sb1).g
          sb2).g.NR_DSTORE_BLOCKS = b2.nr_dstore_blocks := by
  have H : ∀ (env : FillSuperEnv) (g' : Globals) (sb0 : SuperBlockState)
      (b : BabySuperBlock), env.kzalloc_ok = true → env.set_blocksize_ok = true →
      env.sb_bread_result = some b →
      (babyfs_fill_super env g' sb0).g
        = { NR_DSTORE_BLOCKS := b.nr_dstore_blocks } := by
    intro env g' sb0 b hk hb hr
    cases hi : env.iget_result <;> cases hd : env.d_make_root_ok <;>
      simp [babyfs_fill_super, hk, hb, hr, hi, hd]
  rw [H env1 g sb1 b1 h1k h1b h1r, H env2 _ sb2 b2 h2k h2b h2r]
  exact ⟨rfl, rfl⟩

/-- C9, instantiation of `nr_dstore_blocks_overwritten`: a mount with
block count `1000` followed by a mount with block count `7` leaves `7` in
the shared global. -/
theorem nr_dstore_blocks_overwritten_inst :
    (babyfs_fill_super envMount1000 g0 sbEmpty).g.NR_DSTORE_BLOCKS = (1000 : Int)
    ∧ (babyfs_fill_super envMount7 (babyfs_fill_super envMount1000 g0 sbEmpty).g
          sbEmpty).g.NR_DSTORE_BLOCKS = (7 : Int) :=
  nr_dstore_blocks_overwritten envMount1000 envMount7 g0 sbEmpty sbEmpty
    { magic := 0xBABE1234, nr_dstore_blocks := 1000 }
    { magic := 0xBABE1234, nr_dstore_blocks := 7 } rfl rfl rfl rfl rfl rfl

/-- C10: the pointer `baby_alloc_inode` hands out is the address of the
embedded generic `vfs_inode` sub-object of the wrapper slot, and the
deferred-reclamation callback `baby_i_callback` recovers, via the
`container_of` arithmetic of `BABY_I`, exactly the containing wrapper it
was allocated from — allocate-then-reclaim frees the same slot that was
handed out, for every member offset and every slot address. -/
theorem alloc_reclaim_same_slot (off base : Nat) :
    baby_i_callback_frees off (baby_alloc_inode_ptr off base) = base := by
  simp [baby_i_callback_frees, baby_alloc_inode_ptr, BABY_I, vfs_inode_addr]

end Babyfs
